import Mathlib

/-
Verification of the NASA-polynomial thermodynamic evaluation engine
(range selection, unit grammar, molar→mass conversion, coefficient packs,
species and batch evaluators) against its natural-language specification.

The embedding follows the Python source:
  * tools.py : `_require_coeffs`, `_to_Kelvin`, `_select_nasa_type`,
    `_UNIT_RE`, `_energy_or_entropy_to_mass_basis`
  * hsg.py   : class `HSG` (coefficient packs, per-property calculators)
  * hsgs.py  : class `HSGs` (batch evaluator)
Floating-point numbers are embedded as rationals; Python exceptions are
`Except`/`Option` values; Python dicts are insertion-ordered association
lists.  External collaborators (the `pycuc` unit converter, the
`pyThermoCalcDB` closed-form polynomial primitives, the component-id
resolver) are not part of this repository; they are modelled from the
specification where a claim needs them, and marked as such.
-/

namespace NASACalc

/-- A temperature: a numeric value with a unit tag (`Temperature` in the
source domain model).  Immutable once constructed. -/
structure Temperature where
  value : ℚ
  unit : String
  deriving DecidableEq, Repr

/-- A quantity: a numeric value with a unit string (`CustomProp` in the
source domain model). -/
structure CustomProp where
  value : ℚ
  unit : String
  deriving DecidableEq, Repr

/-- The polynomial family (`NASAType` in `configs/constants`): a closed
enumeration over the two families. -/
inductive NASAType where
  | nasa7
  | nasa9
  deriving DecidableEq, Repr

/-- The (family, bucket) range tag (`NASARangeType` in `configs/constants`):
three contiguous temperature buckets per family. -/
inductive NASARangeType where
  | nasa7_200_1000_K
  | nasa7_1000_6000_K
  | nasa7_6000_20000_K
  | nasa9_200_1000_K
  | nasa9_1000_6000_K
  | nasa9_6000_20000_K
  deriving DecidableEq, Repr

/-- Modelled from the spec: `toKelvin` — the source's `_to_Kelvin`
(tools.py) delegates to the external `pycuc` package, which converts the
value to Kelvin via a unit-conversion table and raises for an unrecognized
unit tag (modelled as `none`). -/
def _to_Kelvin (temp : Temperature) : Option ℚ :=
  if temp.unit = "K" then some temp.value
  else if temp.unit = "C" then some (temp.value + 5463 / 20)
  else if temp.unit = "F" then some ((temp.value - 32) * 5 / 9 + 5463 / 20)
  else none

/-- The range selector `_select_nasa_type` (tools.py, lines 34–63): converts
the temperature and the two breakpoints to Kelvin, then walks the
if/elif/elif chain.  An exception anywhere (unit conversion failure, or the
final unreachable `ValueError` branch) is re-raised, modelled as `none`. -/
def _select_nasa_type (temperature break_temp_min break_temp_max : Temperature)
    (nasa_type : NASAType) : Option NASARangeType :=
  match _to_Kelvin temperature, _to_Kelvin break_temp_min, _to_Kelvin break_temp_max with
  | some T, some T_break_min, some T_break_max =>
    if T ≤ T_break_min then
      some (if nasa_type = .nasa7 then .nasa7_200_1000_K else .nasa9_200_1000_K)
    else if T_break_min < T ∧ T ≤ T_break_max then
      some (if nasa_type = .nasa7 then .nasa7_1000_6000_K else .nasa9_1000_6000_K)
    else if T_break_max < T then
      some (if nasa_type = .nasa7 then .nasa7_6000_20000_K else .nasa9_6000_20000_K)
    else none
  | _, _, _ => none

/-- The low bucket of a family. -/
def lowBucket : NASAType → NASARangeType
  | .nasa7 => .nasa7_200_1000_K
  | .nasa9 => .nasa9_200_1000_K

/-- The mid bucket of a family. -/
def midBucket : NASAType → NASARangeType
  | .nasa7 => .nasa7_1000_6000_K
  | .nasa9 => .nasa9_1000_6000_K

/-- The high bucket of a family. -/
def highBucket : NASAType → NASARangeType
  | .nasa7 => .nasa7_6000_20000_K
  | .nasa9 => .nasa9_6000_20000_K

/-
Unit grammar and molar→mass conversion (tools.py lines 66–146).
Python string operations are embedded on `List Char`: `str.strip` is
`trimChars`, `str.lower` maps `Char.toLower`, `str.replace(" ", "")` filters
out spaces.  The anchored regex `_UNIT_RE` is embedded as a deterministic
parser; this is exact because the alternatives `j|kj|cal|kcal` and
`mol|kmol` have pairwise-distinct viable prefixes and the optional `.k`
group admits no successful backtracking (a rest beginning with `.` never
matches the trailing whitespace-then-end).
-/

/-- The whitespace class used by the regex and by `strip` (space, tab,
newline, carriage return). -/
def isSpaceChar (c : Char) : Bool :=
  c = ' ' ∨ c = '\t' ∨ c = '\n' ∨ c = '\r'

/-- Python `str.strip`: drop leading and trailing whitespace. -/
def trimChars (cs : List Char) : List Char :=
  ((cs.dropWhile isSpaceChar).reverse.dropWhile isSpaceChar).reverse

/-- Drop a literal string from the front of the character stream, returning
the rest on success. -/
def dropLit : List Char → List Char → Option (List Char)
  | [], cs => some cs
  | _ :: _, [] => none
  | p :: ps, c :: cs => if c = p then dropLit ps cs else none

/-- Try literal alternatives in regex (leftmost) order. -/
def parseAlt (alts : List String) (cs : List Char) : Option (String × List Char) :=
  match alts with
  | [] => none
  | a :: rest =>
    match dropLit a.toList cs with
    | some cs2 => some (a, cs2)
    | none => parseAlt rest cs

/-- The named groups captured by a successful `_UNIT_RE` match. -/
structure UnitMatch where
  eu : String
  amount : String
  hasK : Bool
  deriving DecidableEq, Repr

/-- The anchored regex `_UNIT_RE` (tools.py lines 78–87):
`^\s*(j|kj|cal|kcal)\s*/\s*(mol|kmol)(\.k)?\s*$` — applied by the source to
the already lower-cased input, so the IGNORECASE flag is moot. -/
def matchUnitRe (cs : List Char) : Option UnitMatch :=
  let cs0 := cs.dropWhile isSpaceChar
  match parseAlt ["j", "kj", "cal", "kcal"] cs0 with
  | none => none
  | some (eu, cs1) =>
    match (cs1.dropWhile isSpaceChar) with
    | '/' :: cs2 =>
      match parseAlt ["mol", "kmol"] (cs2.dropWhile isSpaceChar) with
      | none => none
      | some (amount, cs3) =>
        match dropLit ['.', 'k'] cs3 with
        | some cs4 =>
          if cs4.all isSpaceChar then some ⟨eu, amount, true⟩
          else if cs3.all isSpaceChar then some ⟨eu, amount, false⟩
          else none
        | none =>
          if cs3.all isSpaceChar then some ⟨eu, amount, false⟩ else none
    | _ => none

/-- Python `unit_raw.lower().replace(" ", "")` — the normalization applied
before matching `_UNIT_RE`. -/
def normalizeUnit (unit_raw : List Char) : List Char :=
  (unit_raw.map Char.toLower).filter (fun c => c ≠ ' ')

/-- Python `unit_raw.split("/")[0].strip()` — the original-casing energy
unit recovered from the raw unit string (line 127). -/
def energyUnitOut (unit_raw : List Char) : List Char :=
  trimChars (unit_raw.takeWhile (fun c => c ≠ '/'))

/-- The molar→mass basis converter `_energy_or_entropy_to_mass_basis`
(tools.py lines 90–146).  The two `ValueError`s raised by the source are
embedded as `Except.error` with the leading words of the source's
messages; the source's own `except` clause re-raises, so errors propagate
to the caller. -/
def _energy_or_entropy_to_mass_basis (value : CustomProp) (mw_g_per_mol : ℚ) :
    Except String CustomProp :=
  if mw_g_per_mol ≤ 0 then
    .error "mw must be > 0"
  else
    let unit_raw := trimChars value.unit.toList
    let unit_norm := normalizeUnit unit_raw
    match matchUnitRe unit_norm with
    | none => .error "Unsupported or invalid unit format"
    | some m =>
      let energy_unit_out := (energyUnitOut unit_raw).asString
      let mass_value :=
        if m.amount = "mol" then value.value / (mw_g_per_mol / 1000)
        else value.value / mw_g_per_mol
      let mass_unit :=
        if m.hasK then energy_unit_out ++ "/kg.K" else energy_unit_out ++ "/kg"
      .ok ⟨mass_value, mass_unit⟩

/-
Coefficient packs and the species evaluator (hsg.py).
-/

/-- A coefficient mapping: a Python dict from coefficient name to float,
embedded as an association list with unique keys. -/
abbrev Coeffs := List (String × ℚ)

/-- The pack builder `_require_coeffs` (tools.py lines 14–23): `None` if
any required key is absent, else the dict comprehension
`(k : coeffs[k] for k in required)`. -/
def _require_coeffs (coeffs : Coeffs) (required : List String) : Option Coeffs :=
  let missing := required.filter (fun k => (coeffs.lookup k).isNone)
  if missing ≠ [] then none
  else some (required.filterMap (fun k => (coeffs.lookup k).map (fun v => (k, v))))

/-- The calculation basis (`BasisType` in `configs/constants`). -/
inductive BasisType where
  | molar
  | mass
  deriving DecidableEq, Repr

/-- Required NASA7 coefficient names (hsg.py line 72). -/
def req_coeffs_NASA7 : List String := ["a1", "a2", "a3", "a4", "a5", "a6", "a7"]

/-- Required NASA9 coefficient names (hsg.py line 73). -/
def req_coeffs_NASA9 : List String :=
  ["a1", "a2", "a3", "a4", "a5", "a6", "a7", "b1", "b2"]

/-- Required auxiliary property names (hsg.py line 76). -/
def req_props : List String := ["MW"]

/-- The species evaluator state (class `HSG`): the six per-(family, bucket)
raw-coefficient slots filled (or not) at construction, and the basis.  The
mutable `props` attribute is not a field: the source overwrites it from the
same raw coefficients on every successful pack build inside
`_set_nasa_coefficients` and only reads it after such a build, so each
calculator observes the value recomputed for its own bucket (`propsAt`
below). -/
structure HSG where
  basis : BasisType
  nasa9_200_1000_coefficients : Option Coeffs := none
  nasa9_1000_6000_coefficients : Option Coeffs := none
  nasa9_6000_20000_coefficients : Option Coeffs := none
  nasa7_200_1000_coefficients : Option Coeffs := none
  nasa7_1000_6000_coefficients : Option Coeffs := none
  nasa7_6000_20000_coefficients : Option Coeffs := none

/-- The raw-coefficient slot consulted by each branch of
`_set_nasa_coefficients` (hsg.py lines 209–261). -/
def HSG.rawCoeffs (h : HSG) : NASARangeType → Option Coeffs
  | .nasa9_200_1000_K => h.nasa9_200_1000_coefficients
  | .nasa9_1000_6000_K => h.nasa9_1000_6000_coefficients
  | .nasa9_6000_20000_K => h.nasa9_6000_20000_coefficients
  | .nasa7_200_1000_K => h.nasa7_200_1000_coefficients
  | .nasa7_1000_6000_K => h.nasa7_1000_6000_coefficients
  | .nasa7_6000_20000_K => h.nasa7_6000_20000_coefficients

/-- The required-key set used by each branch of `_set_nasa_coefficients`. -/
def NASARangeType.reqKeys : NASARangeType → List String
  | .nasa9_200_1000_K => req_coeffs_NASA9
  | .nasa9_1000_6000_K => req_coeffs_NASA9
  | .nasa9_6000_20000_K => req_coeffs_NASA9
  | .nasa7_200_1000_K => req_coeffs_NASA7
  | .nasa7_1000_6000_K => req_coeffs_NASA7
  | .nasa7_6000_20000_K => req_coeffs_NASA7

/-- Whether a range tag belongs to the NASA9 family — both the explicit
three-way disjunctions and the `"nasa9" in nasa_type` test in the source
classify tags this way. -/
def NASARangeType.isNASA9 : NASARangeType → Bool
  | .nasa9_200_1000_K => true
  | .nasa9_1000_6000_K => true
  | .nasa9_6000_20000_K => true
  | _ => false

/-- The pack access `_set_nasa_coefficients` (hsg.py lines 204–283): pick
the slot for the tag, `None` if unset, else build the pack with the
family's required keys. -/
def HSG._set_nasa_coefficients (h : HSG) (nasa_type : NASARangeType) : Option Coeffs :=
  match h.rawCoeffs nasa_type with
  | none => none
  | some coeffs => _require_coeffs coeffs nasa_type.reqKeys

/-- The `_set_props` extraction (hsg.py lines 285–298): require `MW` from
the same raw coefficient source. -/
def HSG._set_props (coeffs : Coeffs) : Option Coeffs :=
  _require_coeffs coeffs req_props

/-- The value of `self.props` observed by a calculator after a successful
pack build for `nasa_type` (set at hsg.py line 277 from the bucket's raw
coefficients). -/
def HSG.propsAt (h : HSG) (nasa_type : NASARangeType) : Option Coeffs :=
  match h.rawCoeffs nasa_type with
  | none => none
  | some coeffs => HSG._set_props coeffs

/-- The closed-form polynomial primitives imported from the external
`pyThermoCalcDB` package (`En_IG_*`, `S_IG_*`, `GiFrEn_IG`, `Cp_IG_*`).
They are outside this repository and the spec scopes them out as known
mathematical primitives, so the evaluator layer is verified for an
arbitrary interpretation: each field receives exactly the named
coefficients the source passes at the corresponding call site, plus the
temperature, and may return `none` (each calculator checks its result for
`None`). -/
structure Formulas where
  en7 : ℚ → ℚ → ℚ → ℚ → ℚ → ℚ → ℚ → Temperature → Option CustomProp
  en9 : ℚ → ℚ → ℚ → ℚ → ℚ → ℚ → ℚ → ℚ → ℚ → Temperature → Option CustomProp
  s7 : ℚ → ℚ → ℚ → ℚ → ℚ → ℚ → ℚ → Temperature → Option CustomProp
  s9 : ℚ → ℚ → ℚ → ℚ → ℚ → ℚ → ℚ → ℚ → ℚ → Temperature → Option CustomProp
  g7 : ℚ → ℚ → ℚ → ℚ → ℚ → ℚ → ℚ → Temperature → Option CustomProp
  g9 : ℚ → ℚ → ℚ → ℚ → ℚ → ℚ → ℚ → ℚ → ℚ → Temperature → Option CustomProp
  cp7 : ℚ → ℚ → ℚ → ℚ → ℚ → ℚ → ℚ → Temperature → Option CustomProp
  cp9 : ℚ → ℚ → ℚ → ℚ → ℚ → ℚ → ℚ → ℚ → ℚ → Temperature → Option CustomProp

/-- The family dispatch inside `calc_absolute_enthalpy` (hsg.py lines
329–355): look the named coefficients up in the pack (a missing key would
raise and be caught, hence `Option`) and call the family's primitive. -/
def enthalpyDispatch (F : Formulas) (pack : Coeffs) (temperature : Temperature)
    (nasa_type : NASARangeType) : Option CustomProp :=
  if nasa_type.isNASA9 then do
    let a1 ← pack.lookup "a1"
    let a2 ← pack.lookup "a2"
    let a3 ← pack.lookup "a3"
    let a4 ← pack.lookup "a4"
    let a5 ← pack.lookup "a5"
    let a6 ← pack.lookup "a6"
    let a7 ← pack.lookup "a7"
    let b1 ← pack.lookup "b1"
    let b2 ← pack.lookup "b2"
    F.en9 a1 a2 a3 a4 a5 a6 a7 b1 b2 temperature
  else do
    let a1 ← pack.lookup "a1"
    let a2 ← pack.lookup "a2"
    let a3 ← pack.lookup "a3"
    let a4 ← pack.lookup "a4"
    let a5 ← pack.lookup "a5"
    let a6 ← pack.lookup "a6"
    let a7 ← pack.lookup "a7"
    F.en7 a1 a2 a3 a4 a5 a6 a7 temperature

/-- The family dispatch inside `calc_absolute_entropy` (hsg.py lines
408–434). -/
def entropyDispatch (F : Formulas) (pack : Coeffs) (temperature : Temperature)
    (nasa_type : NASARangeType) : Option CustomProp :=
  if nasa_type.isNASA9 then do
    let a1 ← pack.lookup "a1"
    let a2 ← pack.lookup "a2"
    let a3 ← pack.lookup "a3"
    let a4 ← pack.lookup "a4"
    let a5 ← pack.lookup "a5"
    let a6 ← pack.lookup "a6"
    let a7 ← pack.lookup "a7"
    let b1 ← pack.lookup "b1"
    let b2 ← pack.lookup "b2"
    F.s9 a1 a2 a3 a4 a5 a6 a7 b1 b2 temperature
  else do
    let a1 ← pack.lookup "a1"
    let a2 ← pack.lookup "a2"
    let a3 ← pack.lookup "a3"
    let a4 ← pack.lookup "a4"
    let a5 ← pack.lookup "a5"
    let a6 ← pack.lookup "a6"
    let a7 ← pack.lookup "a7"
    F.s7 a1 a2 a3 a4 a5 a6 a7 temperature

/-- The method selection and dispatch inside `calc_gibbs_free_energy`
(hsg.py lines 486–515): `method = "NASA9" if "nasa9" in nasa_type` — the
same family classification as `isNASA9`. -/
def gibbsDispatch (F : Formulas) (pack : Coeffs) (temperature : Temperature)
    (nasa_type : NASARangeType) : Option CustomProp :=
  if nasa_type.isNASA9 then do
    let a1 ← pack.lookup "a1"
    let a2 ← pack.lookup "a2"
    let a3 ← pack.lookup "a3"
    let a4 ← pack.lookup "a4"
    let a5 ← pack.lookup "a5"
    let a6 ← pack.lookup "a6"
    let a7 ← pack.lookup "a7"
    let b1 ← pack.lookup "b1"
    let b2 ← pack.lookup "b2"
    F.g9 a1 a2 a3 a4 a5 a6 a7 b1 b2 temperature
  else do
    let a1 ← pack.lookup "a1"
    let a2 ← pack.lookup "a2"
    let a3 ← pack.lookup "a3"
    let a4 ← pack.lookup "a4"
    let a5 ← pack.lookup "a5"
    let a6 ← pack.lookup "a6"
    let a7 ← pack.lookup "a7"
    F.g7 a1 a2 a3 a4 a5 a6 a7 temperature

/-- The family dispatch inside `calc_heat_capacity` (hsg.py lines 568–594);
note the source passes `b1` and `b2` from the pack to the NASA9 primitive. -/
def heatCapacityDispatch (F : Formulas) (pack : Coeffs) (temperature : Temperature)
    (nasa_type : NASARangeType) : Option CustomProp :=
  if nasa_type.isNASA9 then do
    let a1 ← pack.lookup "a1"
    let a2 ← pack.lookup "a2"
    let a3 ← pack.lookup "a3"
    let a4 ← pack.lookup "a4"
    let a5 ← pack.lookup "a5"
    let a6 ← pack.lookup "a6"
    let a7 ← pack.lookup "a7"
    let b1 ← pack.lookup "b1"
    let b2 ← pack.lookup "b2"
    F.cp9 a1 a2 a3 a4 a5 a6 a7 b1 b2 temperature
  else do
    let a1 ← pack.lookup "a1"
    let a2 ← pack.lookup "a2"
    let a3 ← pack.lookup "a3"
    let a4 ← pack.lookup "a4"
    let a5 ← pack.lookup "a5"
    let a6 ← pack.lookup "a6"
    let a7 ← pack.lookup "a7"
    F.cp7 a1 a2 a3 a4 a5 a6 a7 temperature

/-- The shared tail of the four calculators (hsg.py lines 363–374, 442–451,
523–532, 602–611): if `basis == "mass"` and `props` holds `MW`, convert to
mass basis; a hard failure raised by the conversion lands in the
calculator's blanket `except` clause (lines 375–378), which logs and
returns `None`. -/
def HSG.massBasisStep (h : HSG) (nasa_type : NASARangeType) (v : CustomProp) :
    Option CustomProp :=
  match h.basis, h.propsAt nasa_type with
  | .mass, some props =>
    match props.lookup "MW" with
    | some mw =>
      match _energy_or_entropy_to_mass_basis v mw with
      | .ok w => some w
      | .error _ => none
    | none => some v
  | _, _ => some v

/-- The calculator `calc_absolute_enthalpy` (hsg.py lines 300–378). -/
def HSG.calc_absolute_enthalpy (h : HSG) (F : Formulas) (temperature : Temperature)
    (nasa_type : NASARangeType) : Option CustomProp :=
  match h._set_nasa_coefficients nasa_type with
  | none => none
  | some pack =>
    match enthalpyDispatch F pack temperature nasa_type with
    | none => none
    | some enthalpy => h.massBasisStep nasa_type enthalpy

/-- The calculator `calc_absolute_entropy` (hsg.py lines 380–457). -/
def HSG.calc_absolute_entropy (h : HSG) (F : Formulas) (temperature : Temperature)
    (nasa_type : NASARangeType) : Option CustomProp :=
  match h._set_nasa_coefficients nasa_type with
  | none => none
  | some pack =>
    match entropyDispatch F pack temperature nasa_type with
    | none => none
    | some entropy => h.massBasisStep nasa_type entropy

/-- The calculator `calc_gibbs_free_energy` (hsg.py lines 459–538). -/
def HSG.calc_gibbs_free_energy (h : HSG) (F : Formulas) (temperature : Temperature)
    (nasa_type : NASARangeType) : Option CustomProp :=
  match h._set_nasa_coefficients nasa_type with
  | none => none
  | some pack =>
    match gibbsDispatch F pack temperature nasa_type with
    | none => none
    | some gibbs_free_energy => h.massBasisStep nasa_type gibbs_free_energy

/-- The calculator `calc_heat_capacity` (hsg.py lines 540–617). -/
def HSG.calc_heat_capacity (h : HSG) (F : Formulas) (temperature : Temperature)
    (nasa_type : NASARangeType) : Option CustomProp :=
  match h._set_nasa_coefficients nasa_type with
  | none => none
  | some pack =>
    match heatCapacityDispatch F pack temperature nasa_type with
    | none => none
    | some heat_capacity => h.massBasisStep nasa_type heat_capacity

/-
The batch evaluator (hsgs.py).
-/

/-- A component: name, chemical formula and physical state (the fields of
the external `Component` model this code reads). -/
structure Component where
  name : String
  formula : String
  state : String
  deriving DecidableEq, Repr

/-- Modelled from the spec: the key schemes of the external species
identity resolver (`ComponentKey` from pythermodb_settings). -/
inductive ComponentKey where
  | nameFormula
  | nameState
  deriving DecidableEq, Repr

/-- Modelled from the spec: the external resolver `set_component_id`
(pythermodb_settings) deterministically maps a component and a key scheme
to a canonical identity string (e.g. name+formula). -/
def set_component_id (c : Component) (key : ComponentKey) : String :=
  match key with
  | .nameFormula => c.name ++ "-" ++ c.formula
  | .nameState => c.name ++ "-" ++ c.state

/-- Python dict assignment `d[k] = v`: overwrite in place if the key
exists (keeping its insertion position), else append. -/
def dictInsert {α : Type} (d : List (String × α)) (k : String) (v : α) :
    List (String × α) :=
  match d with
  | [] => [(k, v)]
  | (k0, v0) :: rest =>
    if k0 = k then (k, v) :: rest else (k0, v0) :: dictInsert rest k v

/-- The property name accepted by `calc_components_hsg` (a
`Literal[...]` in the source). -/
inductive PropName where
  | enthalpy
  | entropy
  | gibbs
  | heat_capacity
  deriving DecidableEq, Repr

/-- The per-species dispatch in the batch loop (hsgs.py lines 168–178):
select the HSG method for the requested property. -/
def HSG.calcProp (h : HSG) (F : Formulas) (prop_name : PropName)
    (temperature : Temperature) (nasa_type : NASARangeType) : Option CustomProp :=
  match prop_name with
  | .enthalpy => h.calc_absolute_enthalpy F temperature nasa_type
  | .entropy => h.calc_absolute_entropy F temperature nasa_type
  | .gibbs => h.calc_gibbs_free_energy F temperature nasa_type
  | .heat_capacity => h.calc_heat_capacity F temperature nasa_type

/-- Modelled from the spec: the breakpoint constant
`TEMPERATURE_BREAK_NASA7_1000_K` from `configs/constants` (not under
src/); per the spec and the source's comments the mid breakpoint is
1000 K. -/
def TEMPERATURE_BREAK_NASA7_1000_K : ℚ := 1000

/-- Modelled from the spec: the breakpoint constant
`TEMPERATURE_BREAK_NASA7_6000_K`; the max breakpoint is 6000 K. -/
def TEMPERATURE_BREAK_NASA7_6000_K : ℚ := 6000

/-- Modelled from the spec: the breakpoint constant
`TEMPERATURE_BREAK_NASA9_1000_K`. -/
def TEMPERATURE_BREAK_NASA9_1000_K : ℚ := 1000

/-- Modelled from the spec: the breakpoint constant
`TEMPERATURE_BREAK_NASA9_6000_K`. -/
def TEMPERATURE_BREAK_NASA9_6000_K : ℚ := 6000

/-- The batch evaluator state (class `HSGs`). -/
structure HSGs where
  components : List Component
  component_key : ComponentKey
  nasa_type : NASAType
  component_ids : List String
  reaction_component_ids : List (String × String)
  nasa_temperature_break_min : Temperature
  nasa_temperature_break_max : Temperature
  components_hsg : List (String × HSG)

/-- The HSG constructor (hsg.py `__init__`) as invoked by the batch
builder: extract raw coefficients for the three buckets of the chosen
family (the extraction consults the external data source, abstracted as
`extract`); the other family's slots stay unset; the batch builder passes
no basis, so the default `molar` applies. -/
def mkHSG (extract : NASARangeType → Option Coeffs) (nasa_type : NASAType) : HSG :=
  match nasa_type with
  | .nasa9 =>
    { basis := .molar
      nasa9_200_1000_coefficients := extract .nasa9_200_1000_K
      nasa9_1000_6000_coefficients := extract .nasa9_1000_6000_K
      nasa9_6000_20000_coefficients := extract .nasa9_6000_20000_K }
  | .nasa7 =>
    { basis := .molar
      nasa7_200_1000_coefficients := extract .nasa7_200_1000_K
      nasa7_1000_6000_coefficients := extract .nasa7_1000_6000_K
      nasa7_6000_20000_coefficients := extract .nasa7_6000_20000_K }

/-- The batch constructor `HSGs.__init__` plus `build_components_hsg`
(hsgs.py lines 31–120): component ids, the reaction-role dict
`comp_id ↦ formula-state`, the family breakpoints, and one HSG per
component keyed by id (both dicts built with Python assignment
semantics). -/
def buildHSGs (extract : Component → NASARangeType → Option Coeffs)
    (components : List Component) (component_key : ComponentKey)
    (nasa_type : NASAType) : HSGs :=
  let component_ids := components.map (fun c => set_component_id c component_key)
  let reaction_component_ids :=
    (component_ids.zip components).foldl
      (fun d p => dictInsert d p.1 (p.2.formula ++ "-" ++ p.2.state)) []
  let bmin : ℚ :=
    if nasa_type = .nasa7 then TEMPERATURE_BREAK_NASA7_1000_K
    else TEMPERATURE_BREAK_NASA9_1000_K
  let bmax : ℚ :=
    if nasa_type = .nasa7 then TEMPERATURE_BREAK_NASA7_6000_K
    else TEMPERATURE_BREAK_NASA9_6000_K
  let components_hsg :=
    (component_ids.zip components).foldl
      (fun d p => dictInsert d p.1 (mkHSG (extract p.2) nasa_type)) []
  { components := components
    component_key := component_key
    nasa_type := nasa_type
    component_ids := component_ids
    reaction_component_ids := reaction_component_ids
    nasa_temperature_break_min := ⟨bmin, "K"⟩
    nasa_temperature_break_max := ⟨bmax, "K"⟩
    components_hsg := components_hsg }

/-- One iteration of the batch loop (hsgs.py lines 166–199): compute the
property; on `None` skip (the item is excluded); otherwise store under the
reaction-role key (a failed dict lookup there would raise a `KeyError`,
caught by the method's `except` clause — the whole call returns `None`,
absorbed here by the `none` accumulator) or under the component id. -/
def batchStep (F : Formulas) (hs : HSGs) (temperature : Temperature)
    (prop_name : PropName) (nasa_type_selected : NASARangeType)
    (reaction_ids : Bool) (acc : Option (List (String × CustomProp)))
    (p : String × HSG) : Option (List (String × CustomProp)) :=
  match acc with
  | none => none
  | some d =>
    match p.2.calcProp F prop_name temperature nasa_type_selected with
    | none => some d
    | some res =>
      if reaction_ids then
        match hs.reaction_component_ids.lookup p.1 with
        | some rid => some (dictInsert d rid res)
        | none => none
      else some (dictInsert d p.1 res)

/-- The batch evaluation `calc_components_hsg` (hsgs.py lines 122–205):
select one bucket for the temperature (an exception from the selector is
caught by the method's `except` clause, returning `None` for the whole
batch), then loop over the per-component evaluators accumulating a dict. -/
def HSGs.calc_components_hsg (hs : HSGs) (F : Formulas) (temperature : Temperature)
    (prop_name : PropName) (reaction_ids : Bool) :
    Option (List (String × CustomProp)) :=
  match _select_nasa_type temperature hs.nasa_temperature_break_min
      hs.nasa_temperature_break_max hs.nasa_type with
  | none => none
  | some nasa_type_selected =>
    hs.components_hsg.foldl
      (batchStep F hs temperature prop_name nasa_type_selected reaction_ids)
      (some [])

/-- The effect of one batch iteration on the accumulated dict under
component-id keying (`reaction_ids = false`): skip on `none`, else insert
— the projection of `batchStep` used to reason about the loop. -/
def pureBatchStep (F : Formulas) (temperature : Temperature) (prop_name : PropName)
    (sel : NASARangeType) (d : List (String × CustomProp)) (p : String × HSG) :
    List (String × CustomProp) :=
  match p.2.calcProp F prop_name temperature sel with
  | none => d
  | some res => dictInsert d p.1 res

/-
Concrete instances used to witness the theorems below.
-/

/-- A constant interpretation of the external polynomial primitives, used
to instantiate the evaluator theorems on concrete inputs: energy-like
properties report 1 J/mol, entropy-like 1 J/mol.K. -/
def constFormulas : Formulas where
  en7 := fun _ _ _ _ _ _ _ _ => some ⟨1, "J/mol"⟩
  en9 := fun _ _ _ _ _ _ _ _ _ _ => some ⟨1, "J/mol"⟩
  s7 := fun _ _ _ _ _ _ _ _ => some ⟨1, "J/mol.K"⟩
  s9 := fun _ _ _ _ _ _ _ _ _ _ => some ⟨1, "J/mol.K"⟩
  g7 := fun _ _ _ _ _ _ _ _ => some ⟨1, "J/mol"⟩
  g9 := fun _ _ _ _ _ _ _ _ _ _ => some ⟨1, "J/mol"⟩
  cp7 := fun _ _ _ _ _ _ _ _ => some ⟨1, "J/mol.K"⟩
  cp9 := fun _ _ _ _ _ _ _ _ _ _ => some ⟨1, "J/mol.K"⟩

/-- A complete NASA7 raw-coefficient mapping. -/
def coeffs7Full : Coeffs :=
  [("a1", 1), ("a2", 2), ("a3", 3), ("a4", 4), ("a5", 5), ("a6", 6), ("a7", 7)]

/-- A NASA9 raw-coefficient mapping missing the required key `b2`. -/
def coeffs9MissingB2 : Coeffs :=
  [("a1", 1), ("a2", 2), ("a3", 3), ("a4", 4), ("a5", 5), ("a6", 6), ("a7", 7), ("b1", 8)]

/-- A complete NASA7 raw-coefficient mapping whose auxiliary molecular
weight is non-positive — a configuration error that makes the mass-basis
conversion raise. -/
def coeffsBadMW : Coeffs :=
  [("a1", 0), ("a2", 0), ("a3", 0), ("a4", 0), ("a5", 0), ("a6", 0), ("a7", 0), ("MW", -1)]

/-- A complete NASA7 raw-coefficient mapping with a valid molecular
weight. -/
def coeffsWithMW : Coeffs :=
  [("a1", 1), ("a2", 2), ("a3", 3), ("a4", 4), ("a5", 5), ("a6", 6), ("a7", 7), ("MW", 2)]

/-- A mass-basis species evaluator whose low-bucket source carries
MW = -1. -/
def hsgBadMW : HSG :=
  { basis := .mass, nasa7_200_1000_coefficients := some coeffsBadMW }

/-- A mass-basis species evaluator whose low-bucket source has no `MW`
key. -/
def hsgMassNoMW : HSG :=
  { basis := .mass, nasa7_200_1000_coefficients := some coeffs7Full }

/-- A mass-basis species evaluator whose low-bucket source has MW = 2. -/
def hsgMassMW : HSG :=
  { basis := .mass, nasa7_200_1000_coefficients := some coeffsWithMW }

/-- A demo component. -/
def compA : Component := ⟨"water", "H2O", "g"⟩

/-- A second demo component with the same formula and state as `compA` but
a different name (hence a different canonical id). -/
def compB : Component := ⟨"steam", "H2O", "g"⟩

/-- A demo component whose coefficients are absent from the source. -/
def compC : Component := ⟨"oxygen", "O2", "g"⟩

/-- A demo coefficient source: full low-bucket NASA7 coefficients for every
component except `oxygen`, which has no data at all. -/
def extractDemo : Component → NASARangeType → Option Coeffs :=
  fun c nt =>
    if c.name = "oxygen" then none
    else if nt = .nasa7_200_1000_K then some coeffs7Full else none

/-- A species evaluator whose NASA9 low-bucket raw coefficients miss
`b2`. -/
def hsg9MissingB2 : HSG :=
  { basis := .molar, nasa9_200_1000_coefficients := some coeffs9MissingB2 }

/-
The Family-9 closed-form primitives, for the b1/b2 usage claim.  They live
in the external pyThermoCalcDB package (imported at the top of hsg.py) and
the spec scopes them out as known mathematical primitives, so they are
modelled here from the spec over ℝ.
-/

/-- Modelled from the spec: a Family-9 coefficient pack — the nine named
coefficients the source passes to each NASA9 primitive. -/
structure NASA9Pack where
  a1 : ℝ
  a2 : ℝ
  a3 : ℝ
  a4 : ℝ
  a5 : ℝ
  a6 : ℝ
  a7 : ℝ
  b1 : ℝ
  b2 : ℝ

/-- Modelled from the spec: the universal gas constant (J/mol.K) used by
the external primitives. -/
noncomputable def R_gas : ℝ := 8314 / 1000

/-- Modelled from the spec: `Cp_IG_NASA9_polynomial` — the standard NASA-9
heat-capacity form; per the spec, the b1/b2 coefficients contribute no
term here (they are used only by enthalpy/entropy/Gibbs). -/
noncomputable def Cp_IG_NASA9_polynomial (p : NASA9Pack) (T : ℝ) : ℝ :=
  R_gas * (p.a1 / T ^ 2 + p.a2 / T + p.a3 + p.a4 * T + p.a5 * T ^ 2 +
    p.a6 * T ^ 3 + p.a7 * T ^ 4)

/-- Modelled from the spec: `En_IG_NASA9_polynomial` — the standard NASA-9
enthalpy form, in which the integration constant b1 enters through the
`b1 / T` term. -/
noncomputable def En_IG_NASA9_polynomial (p : NASA9Pack) (T : ℝ) : ℝ :=
  R_gas * T * (-p.a1 / T ^ 2 + p.a2 * Real.log T / T + p.a3 + p.a4 * T / 2 +
    p.a5 * T ^ 2 / 3 + p.a6 * T ^ 3 / 4 + p.a7 * T ^ 4 / 5 + p.b1 / T)

/-- Modelled from the spec: `S_IG_NASA9_polynomial` — the standard NASA-9
entropy form, in which the integration constant b2 enters as an additive
term. -/
noncomputable def S_IG_NASA9_polynomial (p : NASA9Pack) (T : ℝ) : ℝ :=
  R_gas * (-p.a1 / (2 * T ^ 2) - p.a2 / T + p.a3 * Real.log T + p.a4 * T +
    p.a5 * T ^ 2 / 2 + p.a6 * T ^ 3 / 3 + p.a7 * T ^ 4 / 4 + p.b2)

/-- Modelled from the spec: `GiFrEn_IG` with method NASA9 — the Gibbs free
energy G = H − T·S built from the two primitives above. -/
noncomputable def GiFrEn_IG_NASA9 (p : NASA9Pack) (T : ℝ) : ℝ :=
  En_IG_NASA9_polynomial p T - T * S_IG_NASA9_polynomial p T

/-
Theorems.
-/

/-- C1: for every temperature and breakpoints min < max (all convertible to
Kelvin), the range selector returns exactly one of the three buckets of the
requested family, with the fixed tie-breaks: T ≤ min → low (so T = min is
low), min < T ≤ max → mid (so T = max is mid, not high), T > max → high;
the three cases partition the line.  Holds for both families. -/
theorem select_nasa_type_partitions
    (t tmin tmax : Temperature) (nt : NASAType) (T Tmin Tmax : ℚ)
    (hT : _to_Kelvin t = some T)
    (hmin : _to_Kelvin tmin = some Tmin)
    (hmax : _to_Kelvin tmax = some Tmax)
    (hlt : Tmin < Tmax) :
    (_select_nasa_type t tmin tmax nt = some (lowBucket nt) ↔ T ≤ Tmin) ∧
    (_select_nasa_type t tmin tmax nt = some (midBucket nt) ↔ Tmin < T ∧ T ≤ Tmax) ∧
    (_select_nasa_type t tmin tmax nt = some (highBucket nt) ↔ Tmax < T) ∧
    (_select_nasa_type t tmin tmax nt = some (lowBucket nt) ∨
     _select_nasa_type t tmin tmax nt = some (midBucket nt) ∨
     _select_nasa_type t tmin tmax nt = some (highBucket nt)) := by
  have hne7 : lowBucket nt ≠ midBucket nt ∧ midBucket nt ≠ highBucket nt ∧
      lowBucket nt ≠ highBucket nt := by
    cases nt <;> exact ⟨by decide, by decide, by decide⟩
  have heq : _select_nasa_type t tmin tmax nt =
      (if T ≤ Tmin then some (lowBucket nt)
       else if Tmin < T ∧ T ≤ Tmax then some (midBucket nt)
       else if Tmax < T then some (highBucket nt) else none) := by
    unfold _select_nasa_type
    rw [hT, hmin, hmax]
    cases nt <;> simp [lowBucket, midBucket, highBucket]
  rw [heq]
  rcases le_or_lt T Tmin with h1 | h1
  · rw [if_pos h1]
    refine ⟨by simp [h1], ?_, ?_, Or.inl rfl⟩
    · constructor
      · intro h; exact absurd (Option.some.inj h) hne7.1
      · rintro ⟨h2, _⟩; exact absurd h1 (not_le.mpr h2)
    · constructor
      · intro h; exact absurd (Option.some.inj h) hne7.2.2
      · intro h2; exact absurd (h1.trans hlt.le) (not_le.mpr h2)
  · rw [if_neg (not_le.mpr h1)]
    rcases le_or_lt T Tmax with h2 | h2
    · rw [if_pos ⟨h1, h2⟩]
      refine ⟨?_, by simp [h1, h2], ?_, Or.inr (Or.inl rfl)⟩
      · constructor
        · intro h; exact absurd (Option.some.inj h) (Ne.symm hne7.1)
        · intro h3; exact absurd h1 (not_lt.mpr h3)
      · constructor
        · intro h; exact absurd (Option.some.inj h) hne7.2.1
        · intro h3; exact absurd h2 (not_le.mpr h3)
    · rw [if_neg (by push_neg; intro _; exact h2), if_pos h2]
      refine ⟨?_, ?_, by simp [h2], Or.inr (Or.inr rfl)⟩
      · constructor
        · intro h; exact absurd (Option.some.inj h) (Ne.symm hne7.2.2)
        · intro h3; exact absurd (h3.trans_lt hlt) (not_lt.mpr h2.le)
      · constructor
        · intro h; exact absurd (Option.some.inj h) (Ne.symm hne7.2.1)
        · rintro ⟨_, h3⟩; exact absurd h2 (not_lt.mpr h3)

/-- Witness for C1: at T = 1000 K against breakpoints 1000 K and 6000 K the
selector lands in the low bucket (the min breakpoint is inclusive to low). -/
theorem select_nasa_type_partitions_witness :
    _select_nasa_type ⟨1000, "K"⟩ ⟨1000, "K"⟩ ⟨6000, "K"⟩ .nasa7 =
      some (lowBucket .nasa7) ∧ (1000 : ℚ) ≤ 1000 :=
  ⟨((select_nasa_type_partitions ⟨1000, "K"⟩ ⟨1000, "K"⟩ ⟨6000, "K"⟩ .nasa7
      1000 1000 6000 rfl rfl rfl (by norm_num)).1).mpr le_rfl, le_rfl⟩

/-- A successful `parseAlt` returns one of its alternatives. -/
theorem parseAlt_mem (alts : List String) (cs : List Char) (a : String)
    (rest : List Char) (h : parseAlt alts cs = some (a, rest)) : a ∈ alts := by
  induction alts with
  | nil => simp [parseAlt] at h
  | cons x xs ih =>
    rw [parseAlt] at h
    cases hx : dropLit x.toList cs with
    | some cs2 =>
      rw [hx] at h
      obtain ⟨h1, _⟩ := Prod.mk.injEq .. ▸ Option.some.inj h
      exact h1 ▸ List.mem_cons_self x xs
    | none =>
      rw [hx] at h
      exact List.mem_cons_of_mem x (ih h)

/-- A successful unit match reports an amount basis of `mol` or `kmol`. -/
theorem matchUnitRe_amount (cs : List Char) (m : UnitMatch)
    (h : matchUnitRe cs = some m) : m.amount = "mol" ∨ m.amount = "kmol" := by
  unfold matchUnitRe at h
  dsimp only at h
  split at h
  · exact absurd h (by simp)
  · split at h
    · split at h
      · exact absurd h (by simp)
      · rename_i amount cs3 ham
        have hmem := parseAlt_mem _ _ _ _ ham
        simp only [List.mem_cons, List.not_mem_nil, or_false] at hmem
        have hma : m.amount = amount := by
          split at h
          · split at h
            · cases h; exact rfl
            · split at h
              · cases h; exact rfl
              · exact absurd h (by simp)
          · split at h
            · cases h; exact rfl
            · exact absurd h (by simp)
        rw [hma]
        exact hmem
    · exact absurd h (by simp)

/-- C5: for every input quantity whose unit string parses under the strict
grammar, the molar→mass conversion fails with the invalid-molecular-weight
error whenever mw ≤ 0; otherwise it returns, for amount basis `mol`, the
value divided by (MW/1000), and for `kmol` the value divided by MW, with
the output unit built from the original-casing energy unit
(`unit_raw.split("/")[0].strip()`) followed by `/kg`, with `.K` appended
exactly when the input unit carried the temperature dimension. -/
theorem mass_basis_conversion_spec (value : CustomProp) (mw : ℚ) (m : UnitMatch)
    (hm : matchUnitRe (normalizeUnit (trimChars value.unit.toList)) = some m) :
    (mw ≤ 0 → _energy_or_entropy_to_mass_basis value mw = .error "mw must be > 0") ∧
    (0 < mw → _energy_or_entropy_to_mass_basis value mw =
      .ok ⟨(if m.amount = "mol" then value.value / (mw / 1000) else value.value / mw),
           (if m.hasK then (energyUnitOut (trimChars value.unit.toList)).asString ++ "/kg.K"
            else (energyUnitOut (trimChars value.unit.toList)).asString ++ "/kg")⟩) := by
  constructor
  · intro hle
    unfold _energy_or_entropy_to_mass_basis
    rw [if_pos hle]
  · intro hpos
    unfold _energy_or_entropy_to_mass_basis
    rw [if_neg (not_le.mpr hpos)]
    dsimp only
    rw [hm]

/-- Witness for C5: mw = -1 and mw = 0 both fail with the
invalid-molecular-weight error; mw = 2 on 10 J/mol yields 5000 J/kg. -/
theorem mass_basis_conversion_spec_witness :
    _energy_or_entropy_to_mass_basis ⟨10, "J/mol"⟩ (-1) = .error "mw must be > 0" ∧
    _energy_or_entropy_to_mass_basis ⟨10, "J/mol"⟩ 0 = .error "mw must be > 0" ∧
    _energy_or_entropy_to_mass_basis ⟨10, "J/mol"⟩ 2 = .ok ⟨5000, "J/kg"⟩ := by
  refine ⟨(mass_basis_conversion_spec ⟨10, "J/mol"⟩ (-1) ⟨"j", "mol", false⟩
      (by decide)).1 (by norm_num),
    (mass_basis_conversion_spec ⟨10, "J/mol"⟩ 0 ⟨"j", "mol", false⟩
      (by decide)).1 le_rfl, ?_⟩
  have h := (mass_basis_conversion_spec ⟨10, "J/mol"⟩ 2 ⟨"j", "mol", false⟩
      (by decide)).2 (by norm_num)
  rw [h]
  norm_num
  decide

/-- C6: the unit parser accepts exactly the strict grammar
`energyUnit "/" amountBasis [".K"]`, case-insensitively and tolerating
whitespace — `J/mol` (amount mol, no K), `kJ/kmol` (kmol, no K), `J/mol.K`
(mol, K), `kJ/kmol.K` (kmol, K), also with mixed case and spaces — and a
second-slash form such as `J/mol/K` is rejected and surfaces from the
conversion as the hard invalid-unit-format error. -/
theorem unit_grammar_accepts_and_rejects :
    matchUnitRe (normalizeUnit (trimChars "J/mol".toList)) =
      some ⟨"j", "mol", false⟩ ∧
    matchUnitRe (normalizeUnit (trimChars "kJ/kmol".toList)) =
      some ⟨"kj", "kmol", false⟩ ∧
    matchUnitRe (normalizeUnit (trimChars "J/mol.K".toList)) =
      some ⟨"j", "mol", true⟩ ∧
    matchUnitRe (normalizeUnit (trimChars "kJ/kmol.K".toList)) =
      some ⟨"kj", "kmol", true⟩ ∧
    matchUnitRe (normalizeUnit (trimChars "  kJ / KMOL . K  ".toList)) =
      some ⟨"kj", "kmol", true⟩ ∧
    matchUnitRe (normalizeUnit (trimChars "J/mol/K".toList)) = none ∧
    _energy_or_entropy_to_mass_basis ⟨1, "J/mol/K"⟩ 28 =
      .error "Unsupported or invalid unit format" := by
  refine ⟨by decide, by decide, by decide, by decide, by decide, by decide, by rfl⟩

/-- The pack builder returns `none` exactly when some required key is
absent from the raw mapping. -/
theorem require_coeffs_none_iff (coeffs : Coeffs) (req : List String) :
    _require_coeffs coeffs req = none ↔ ∃ k ∈ req, coeffs.lookup k = none := by
  unfold _require_coeffs
  dsimp only
  by_cases hm : req.filter (fun k => (coeffs.lookup k).isNone) = []
  · rw [if_neg (not_not_intro hm)]
    rw [List.filter_eq_nil_iff] at hm
    constructor
    · intro h; exact absurd h (by simp)
    · rintro ⟨k, hk, hnone⟩
      exact absurd (show ((coeffs.lookup k).isNone = true) by simp [hnone]) (hm k hk)
  · rw [if_pos hm]
    constructor
    · intro _
      obtain ⟨k, hk⟩ := List.exists_mem_of_ne_nil _ hm
      have hmem := List.mem_filter.mp hk
      exact ⟨k, hmem.1, Option.isNone_iff_eq_none.mp hmem.2⟩
    · intro _; rfl

/-- On success the pack builder returns the dict comprehension over the
required keys, and every required key was present. -/
theorem require_coeffs_some_eq (coeffs : Coeffs) (req : List String) (pack : Coeffs)
    (h : _require_coeffs coeffs req = some pack) :
    pack = req.filterMap (fun k => (coeffs.lookup k).map (fun v => (k, v))) ∧
    ∀ k ∈ req, (coeffs.lookup k).isSome := by
  unfold _require_coeffs at h
  dsimp only at h
  by_cases hm : req.filter (fun k => (coeffs.lookup k).isNone) = []
  · rw [if_neg (not_not_intro hm)] at h
    rw [List.filter_eq_nil_iff] at hm
    refine ⟨(Option.some.inj h).symm, ?_⟩
    intro k hk
    cases hx : coeffs.lookup k with
    | none => exact absurd (show ((coeffs.lookup k).isNone = true) by simp [hx]) (hm k hk)
    | some v => simp [hx]
  · rw [if_pos hm] at h
    exact absurd h (by simp)

/-- Looking a key up in the built pack: the raw value if the key is
required, nothing otherwise. -/
theorem lookup_filterMap_pack (coeffs : Coeffs) (req : List String)
    (hall : ∀ k ∈ req, (coeffs.lookup k).isSome) (k : String) :
    (req.filterMap (fun r => (coeffs.lookup r).map (fun v => (r, v)))).lookup k =
      if k ∈ req then coeffs.lookup k else none := by
  induction req with
  | nil => simp
  | cons r rest ih =>
    have hr := hall r (List.mem_cons_self r rest)
    obtain ⟨v, hv⟩ := Option.isSome_iff_exists.mp hr
    have hrest : ∀ k ∈ rest, (coeffs.lookup k).isSome := fun k hk =>
      hall k (List.mem_cons_of_mem r hk)
    rw [List.filterMap_cons, hv]
    by_cases hkr : k = r
    · subst hkr
      simp [List.lookup, hv]
    · have hbeq : (k == r) = false := beq_eq_false_iff_ne.mpr hkr
      simp [List.lookup, hbeq, ih hrest, List.mem_cons, hkr]

/-- C7: building a coefficient pack from a raw mapping returns Unavailable
iff at least one required key is absent; the required keys are a1–a7 for
the nasa7 family and a1–a7, b1, b2 for nasa9; on success the pack holds a
value for every required key taken verbatim from the raw mapping, and
every value in the pack comes from the raw mapping — no default is ever
substituted. -/
theorem coefficient_pack_requires_all_keys (h : HSG) (nt : NASARangeType)
    (coeffs : Coeffs) (hslot : h.rawCoeffs nt = some coeffs) :
    h._set_nasa_coefficients nt = _require_coeffs coeffs nt.reqKeys ∧
    nt.reqKeys = (if nt.isNASA9 then req_coeffs_NASA9 else req_coeffs_NASA7) ∧
    (_require_coeffs coeffs nt.reqKeys = none ↔
      ∃ k ∈ nt.reqKeys, coeffs.lookup k = none) ∧
    (∀ pack, _require_coeffs coeffs nt.reqKeys = some pack →
      ∀ k ∈ nt.reqKeys, pack.lookup k = coeffs.lookup k ∧ (coeffs.lookup k).isSome) ∧
    (∀ pack k v, _require_coeffs coeffs nt.reqKeys = some pack →
      pack.lookup k = some v → coeffs.lookup k = some v) := by
  refine ⟨?_, ?_, require_coeffs_none_iff coeffs nt.reqKeys, ?_, ?_⟩
  · unfold HSG._set_nasa_coefficients
    rw [hslot]
  · cases nt <;> rfl
  · intro pack hp k hk
    obtain ⟨hpack, hall⟩ := require_coeffs_some_eq coeffs nt.reqKeys pack hp
    subst hpack
    rw [lookup_filterMap_pack coeffs nt.reqKeys hall k, if_pos hk]
    exact ⟨rfl, hall k hk⟩
  · intro pack k v hp hl
    obtain ⟨hpack, hall⟩ := require_coeffs_some_eq coeffs nt.reqKeys pack hp
    subst hpack
    rw [lookup_filterMap_pack coeffs nt.reqKeys hall k] at hl
    by_cases hk : k ∈ nt.reqKeys
    · rwa [if_pos hk] at hl
    · rw [if_neg hk] at hl
      exact absurd hl (by simp)

/-- Witness for C7: a NASA9 source missing `b2` yields no pack. -/
theorem coefficient_pack_requires_all_keys_witness :
    hsg9MissingB2._set_nasa_coefficients .nasa9_200_1000_K = none := by
  have h := coefficient_pack_requires_all_keys hsg9MissingB2 .nasa9_200_1000_K
    coeffs9MissingB2 rfl
  rw [h.1]
  exact h.2.2.1.mpr ⟨"b2", by decide, by decide⟩

/-- C3 counterexample: a hard failure (non-positive molecular weight)
raised by the mass-basis conversion during a single-species enthalpy
calculation does not propagate to the caller as a distinct error: the
calculator's blanket handler catches it and returns `none`, the very value
that represents Unavailable (absent data). -/
theorem hard_failure_becomes_unavailable_counterexample :
    _energy_or_entropy_to_mass_basis ⟨1, "J/mol"⟩ (-1) = .error "mw must be > 0" ∧
    hsgBadMW.calc_absolute_enthalpy constFormulas ⟨300, "K"⟩ .nasa7_200_1000_K = none :=
  ⟨by rfl, by decide⟩

/-- C3 (amended): a hard failure raised inside a single-species property
calculation (here: non-positive molecular weight during mass-basis
conversion) is caught by the species calculator's blanket exception
handler and returned as `none`, indistinguishable from Unavailable; the
batch evaluator consequently skips the species like absent data rather
than receiving a distinct error. -/
theorem hard_failure_swallowed_by_calculator (F : Formulas) (h : HSG)
    (t : Temperature) (nt : NASARangeType) (pack : Coeffs) (v : CustomProp)
    (props : Coeffs) (mw : ℚ)
    (hbasis : h.basis = .mass)
    (hpack : h._set_nasa_coefficients nt = some pack)
    (hres : enthalpyDispatch F pack t nt = some v)
    (hprops : h.propsAt nt = some props)
    (hmw : props.lookup "MW" = some mw)
    (hmwle : mw ≤ 0) :
    h.calc_absolute_enthalpy F t nt = none := by
  unfold HSG.calc_absolute_enthalpy
  rw [hpack]
  dsimp only
  rw [hres]
  dsimp only
  unfold HSG.massBasisStep
  rw [hbasis, hprops]
  dsimp only
  rw [hmw]
  dsimp only
  have hconv : _energy_or_entropy_to_mass_basis v mw = .error "mw must be > 0" := by
    unfold _energy_or_entropy_to_mass_basis
    rw [if_pos hmwle]
  rw [hconv]

/-- Witness for C3 (amended): the concrete MW = -1 evaluator returns
`none`. -/
theorem hard_failure_swallowed_by_calculator_witness :
    hsgBadMW.calc_absolute_enthalpy constFormulas ⟨300, "K"⟩ .nasa7_200_1000_K = none :=
  hard_failure_swallowed_by_calculator constFormulas hsgBadMW ⟨300, "K"⟩
    .nasa7_200_1000_K
    [("a1", 0), ("a2", 0), ("a3", 0), ("a4", 0), ("a5", 0), ("a6", 0), ("a7", 0)]
    ⟨1, "J/mol"⟩ [("MW", -1)] (-1) rfl (by decide) (by decide) (by decide) (by decide)
    (by norm_num)

/-- C8: for a mass-basis species evaluator, when the property calculation
succeeds but the auxiliary molecular weight is absent from the coefficient
source, the calculator returns the molar-basis quantity unconverted — the
unit string is the molar one, so only inspecting it reveals the silent
degradation; when MW is present the mass-basis conversion is applied
(its outcome, success or swallowed failure, becoming the result). -/
theorem mass_basis_silent_fallback (F : Formulas) (h : HSG) (t : Temperature)
    (nt : NASARangeType) (pack : Coeffs) (v : CustomProp)
    (hbasis : h.basis = .mass)
    (hpack : h._set_nasa_coefficients nt = some pack)
    (hres : enthalpyDispatch F pack t nt = some v) :
    (h.propsAt nt = none → h.calc_absolute_enthalpy F t nt = some v) ∧
    (∀ props mw, h.propsAt nt = some props → props.lookup "MW" = some mw →
      h.calc_absolute_enthalpy F t nt =
        (match _energy_or_entropy_to_mass_basis v mw with
         | .ok w => some w
         | .error _ => none)) := by
  constructor
  · intro hnone
    unfold HSG.calc_absolute_enthalpy
    rw [hpack]
    dsimp only
    rw [hres]
    dsimp only
    unfold HSG.massBasisStep
    rw [hbasis, hnone]
  · intro props mw hprops hmw
    unfold HSG.calc_absolute_enthalpy
    rw [hpack]
    dsimp only
    rw [hres]
    dsimp only
    unfold HSG.massBasisStep
    rw [hbasis, hprops]
    dsimp only
    rw [hmw]

/-- Witness for C8: without `MW` the mass-basis evaluator hands back
1 J/mol untouched; with MW = 2 it converts to 500 J/kg. -/
theorem mass_basis_silent_fallback_witness :
    hsgMassNoMW.calc_absolute_enthalpy constFormulas ⟨300, "K"⟩ .nasa7_200_1000_K =
      some ⟨1, "J/mol"⟩ ∧
    hsgMassMW.calc_absolute_enthalpy constFormulas ⟨300, "K"⟩ .nasa7_200_1000_K =
      some ⟨500, "J/kg"⟩ := by
  constructor
  · exact (mass_basis_silent_fallback constFormulas hsgMassNoMW ⟨300, "K"⟩
      .nasa7_200_1000_K coeffs7Full ⟨1, "J/mol"⟩ rfl (by decide) (by decide)).1
      (by decide)
  · have h := (mass_basis_silent_fallback constFormulas hsgMassMW ⟨300, "K"⟩
      .nasa7_200_1000_K coeffs7Full ⟨1, "J/mol"⟩ rfl (by decide) (by decide)).2
      [("MW", 2)] 2 (by decide) (by decide)
    rw [h]
    have hconv : _energy_or_entropy_to_mass_basis ⟨1, "J/mol"⟩ 2 = .ok ⟨500, "J/kg"⟩ := by
      unfold _energy_or_entropy_to_mass_basis
      rw [if_neg (by norm_num : ¬ (2 : ℚ) ≤ 0)]
      dsimp only
      rw [show matchUnitRe (normalizeUnit (trimChars (("J/mol" : String).toList))) =
          some ⟨"j", "mol", false⟩ from by decide]
      dsimp only
      simp only [Except.ok.injEq, CustomProp.mk.injEq]
      constructor
      · norm_num
      · decide
    rw [hconv]

/-- Inserting then looking up the same key yields the inserted value. -/
theorem lookup_dictInsert_self {α : Type} (d : List (String × α)) (k : String) (v : α) :
    (dictInsert d k v).lookup k = some v := by
  induction d with
  | nil => simp [dictInsert, List.lookup]
  | cons p rest ih =>
    obtain ⟨k0, v0⟩ := p
    unfold dictInsert
    by_cases h : k0 = k
    · rw [if_pos h]
      simp [List.lookup]
    · rw [if_neg h]
      have hbeq : (k == k0) = false := beq_eq_false_iff_ne.mpr (Ne.symm h)
      simp [List.lookup, hbeq, ih]

/-- Insertion does not disturb the lookup of a different key. -/
theorem lookup_dictInsert_ne {α : Type} (d : List (String × α)) (k k' : String)
    (v : α) (h : k ≠ k') : (dictInsert d k v).lookup k' = d.lookup k' := by
  induction d with
  | nil => simp [dictInsert, List.lookup, beq_eq_false_iff_ne.mpr (Ne.symm h)]
  | cons p rest ih =>
    obtain ⟨k0, v0⟩ := p
    unfold dictInsert
    by_cases h0 : k0 = k
    · rw [if_pos h0]
      subst h0
      simp [List.lookup, beq_eq_false_iff_ne.mpr (Ne.symm h)]
    · rw [if_neg h0]
      by_cases hk : k' = k0
      · subst hk
        simp [List.lookup]
      · have hbeq : (k' == k0) = false := beq_eq_false_iff_ne.mpr hk
        simp [List.lookup, hbeq, ih]

/-- With component-id keying the batch loop never aborts: the `Option`
accumulator stays `some` and the loop is the pure dict fold. -/
theorem batch_foldl_eq_pure (F : Formulas) (hs : HSGs) (temperature : Temperature)
    (prop_name : PropName) (sel : NASARangeType)
    (l : List (String × HSG)) (d : List (String × CustomProp)) :
    l.foldl (batchStep F hs temperature prop_name sel false) (some d) =
      some (l.foldl (pureBatchStep F temperature prop_name sel) d) := by
  induction l generalizing d with
  | nil => rfl
  | cons p rest ih =>
    rw [List.foldl_cons, List.foldl_cons]
    cases hc : p.2.calcProp F prop_name temperature sel with
    | none =>
      rw [show batchStep F hs temperature prop_name sel false (some d) p = some d from by
        simp [batchStep, hc]]
      rw [show pureBatchStep F temperature prop_name sel d p = d from by
        simp [pureBatchStep, hc]]
      exact ih d
    | some res =>
      rw [show batchStep F hs temperature prop_name sel false (some d) p =
          some (dictInsert d p.1 res) from by
        simp [batchStep, hc]]
      rw [show pureBatchStep F temperature prop_name sel d p = dictInsert d p.1 res from by
        simp [pureBatchStep, hc]]
      exact ih (dictInsert d p.1 res)

/-- The batch loop leaves keys it never writes untouched. -/
theorem pure_fold_lookup_not_mem (F : Formulas) (temperature : Temperature)
    (prop_name : PropName) (sel : NASARangeType) (l : List (String × HSG))
    (d : List (String × CustomProp)) (id : String)
    (hno : ∀ p ∈ l, p.1 ≠ id) :
    (l.foldl (pureBatchStep F temperature prop_name sel) d).lookup id = d.lookup id := by
  induction l generalizing d with
  | nil => rfl
  | cons p rest ih =>
    rw [List.foldl_cons]
    have hstep : (pureBatchStep F temperature prop_name sel d p).lookup id =
        d.lookup id := by
      unfold pureBatchStep
      cases hc : p.2.calcProp F prop_name temperature sel with
      | none => rfl
      | some res =>
        exact lookup_dictInsert_ne d p.1 id res (hno p (List.mem_cons_self p rest))
    rw [ih _ (fun q hq => hno q (List.mem_cons_of_mem p hq)), hstep]

/-- For a batch with distinct ids, the final dict at a member id holds
exactly that member's calculation result (falling back to the initial dict
when the result is Unavailable). -/
theorem pure_fold_lookup_mem (F : Formulas) (temperature : Temperature)
    (prop_name : PropName) (sel : NASARangeType) (l : List (String × HSG))
    (d : List (String × CustomProp)) (id : String) (hsg : HSG)
    (hmem : (id, hsg) ∈ l) (hnodup : (l.map Prod.fst).Nodup) :
    (l.foldl (pureBatchStep F temperature prop_name sel) d).lookup id =
      (match hsg.calcProp F prop_name temperature sel with
       | some v => some v
       | none => d.lookup id) := by
  induction l generalizing d with
  | nil => cases hmem
  | cons p rest ih =>
    obtain ⟨k, g⟩ := p
    rw [List.foldl_cons]
    rw [List.map_cons, List.nodup_cons] at hnodup
    rcases List.mem_cons.mp hmem with heq | hmem2
    · obtain ⟨h1, h2⟩ := Prod.ext_iff.mp heq
      dsimp only at h1 h2
      subst h1
      subst h2
      have hno : ∀ q ∈ rest, q.1 ≠ id := by
        intro q hq hqid
        have hq1 : q.1 ∈ List.map Prod.fst rest := List.mem_map_of_mem Prod.fst hq
        rw [hqid] at hq1
        exact hnodup.1 hq1
      rw [pure_fold_lookup_not_mem F temperature prop_name sel rest _ id hno]
      unfold pureBatchStep
      dsimp only
      cases hc : hsg.calcProp F prop_name temperature sel with
      | none => rfl
      | some v => exact lookup_dictInsert_self d id v
    · have hkid : k ≠ id := by
        intro h
        have hq1 : (id, hsg).1 ∈ List.map Prod.fst rest :=
          List.mem_map_of_mem Prod.fst hmem2
        rw [← h] at hq1
        exact hnodup.1 hq1
      rw [ih (pureBatchStep F temperature prop_name sel d (k, g)) hmem2 hnodup.2]
      cases hc : hsg.calcProp F prop_name temperature sel with
      | none =>
        dsimp only
        unfold pureBatchStep
        dsimp only
        cases hg : g.calcProp F prop_name temperature sel with
        | none => rfl
        | some res => exact lookup_dictInsert_ne d k id res hkid
      | some v => rfl

/-- Every value in the final dict comes from some member whose calculation
produced it (or was already in the initial dict). -/
theorem pure_fold_lookup_some (F : Formulas) (temperature : Temperature)
    (prop_name : PropName) (sel : NASARangeType) (l : List (String × HSG))
    (d : List (String × CustomProp)) (k : String) (v : CustomProp)
    (h : (l.foldl (pureBatchStep F temperature prop_name sel) d).lookup k = some v) :
    (∃ g, (k, g) ∈ l ∧ g.calcProp F prop_name temperature sel = some v) ∨
      d.lookup k = some v := by
  induction l generalizing d with
  | nil => exact Or.inr h
  | cons p rest ih =>
    rw [List.foldl_cons] at h
    rcases ih _ h with ⟨g, hg, hcalc⟩ | hd
    · exact Or.inl ⟨g, List.mem_cons_of_mem p hg, hcalc⟩
    · obtain ⟨k0, g0⟩ := p
      unfold pureBatchStep at hd
      dsimp only at hd
      cases hc : g0.calcProp F prop_name temperature sel with
      | none =>
        rw [hc] at hd
        exact Or.inr hd
      | some res =>
        rw [hc] at hd
        dsimp only at hd
        by_cases hk : k0 = k
        · subst hk
          rw [lookup_dictInsert_self d k0 res] at hd
          exact Or.inl ⟨g0, List.mem_cons_self _ _, hc.trans hd⟩
        · rw [lookup_dictInsert_ne d k0 k res hk] at hd
          exact Or.inr hd

/-- C2: a batch evaluation at one temperature selects a single bucket once,
shared by all species; each species' evaluator is invoked for the requested
property at that (temperature, bucket); species whose result is Unavailable
are skipped and excluded from the returned mapping, while every remaining
species' result is returned — one missing species never aborts the batch. -/
theorem batch_shares_bucket_and_skips_unavailable (F : Formulas) (hs : HSGs)
    (temperature : Temperature) (prop_name : PropName) (bucket : NASARangeType)
    (hsel : _select_nasa_type temperature hs.nasa_temperature_break_min
      hs.nasa_temperature_break_max hs.nasa_type = some bucket)
    (hnodup : (hs.components_hsg.map Prod.fst).Nodup) :
    ∃ m, hs.calc_components_hsg F temperature prop_name false = some m ∧
      (∀ id hsg, (id, hsg) ∈ hs.components_hsg →
        m.lookup id = hsg.calcProp F prop_name temperature bucket) ∧
      (∀ k v, m.lookup k = some v →
        ∃ hsg, (k, hsg) ∈ hs.components_hsg ∧
          hsg.calcProp F prop_name temperature bucket = some v) := by
  refine ⟨hs.components_hsg.foldl (pureBatchStep F temperature prop_name bucket) [],
    ?_, ?_, ?_⟩
  · unfold HSGs.calc_components_hsg
    rw [hsel]
    exact batch_foldl_eq_pure F hs temperature prop_name bucket hs.components_hsg []
  · intro id hsg hmem
    rw [pure_fold_lookup_mem F temperature prop_name bucket hs.components_hsg []
      id hsg hmem hnodup]
    cases hc : hsg.calcProp F prop_name temperature bucket with
    | none => rfl
    | some v => rfl
  · intro k v h
    rcases pure_fold_lookup_some F temperature prop_name bucket hs.components_hsg []
      k v h with hgood | hbad
    · exact hgood
    · simp [List.lookup] at hbad

/-- Witness for C2: a batch of water (data available) and oxygen (no data)
at 500 K evaluates to a mapping. -/
theorem batch_shares_bucket_and_skips_unavailable_witness :
    ∃ m, (buildHSGs extractDemo [compA, compC] .nameFormula .nasa7).calc_components_hsg
      constFormulas ⟨500, "K"⟩ .enthalpy false = some m :=
  match batch_shares_bucket_and_skips_unavailable constFormulas
    (buildHSGs extractDemo [compA, compC] .nameFormula .nasa7) ⟨500, "K"⟩ .enthalpy
    .nasa7_200_1000_K (by decide) (by decide) with
  | ⟨m, hm, _, _⟩ => ⟨m, hm⟩

/-- C10: when a batch is built from two distinct components that share a
formula and physical state, their reaction-local role keys (formula-state)
collide, and a batch evaluation requested with reaction-role keys
collapses both into a single entry holding the last-evaluated component's
value — the earlier component's result is silently dropped from the
output. -/
theorem reaction_role_key_collision (F : Formulas)
    (extract : Component → NASARangeType → Option Coeffs)
    (c1 c2 : Component) (key : ComponentKey) (ntype : NASAType)
    (temperature : Temperature) (prop_name : PropName) (bucket : NASARangeType)
    (v1 v2 : CustomProp)
    (hform : c1.formula = c2.formula) (hstate : c1.state = c2.state)
    (hid : set_component_id c1 key ≠ set_component_id c2 key)
    (hsel : _select_nasa_type temperature
      (buildHSGs extract [c1, c2] key ntype).nasa_temperature_break_min
      (buildHSGs extract [c1, c2] key ntype).nasa_temperature_break_max
      ntype = some bucket)
    (h1 : (mkHSG (extract c1) ntype).calcProp F prop_name temperature bucket = some v1)
    (h2 : (mkHSG (extract c2) ntype).calcProp F prop_name temperature bucket = some v2) :
    (buildHSGs extract [c1, c2] key ntype).calc_components_hsg F temperature
      prop_name true = some [(c1.formula ++ "-" ++ c1.state, v2)] := by
  have hcomp : (buildHSGs extract [c1, c2] key ntype).components_hsg =
      [(set_component_id c1 key, mkHSG (extract c1) ntype),
       (set_component_id c2 key, mkHSG (extract c2) ntype)] := by
    unfold buildHSGs
    dsimp only
    simp [dictInsert, hid]
  have hrids : (buildHSGs extract [c1, c2] key ntype).reaction_component_ids =
      [(set_component_id c1 key, c1.formula ++ "-" ++ c1.state),
       (set_component_id c2 key, c1.formula ++ "-" ++ c1.state)] := by
    unfold buildHSGs
    dsimp only
    simp [dictInsert, hid, hform, hstate]
  unfold HSGs.calc_components_hsg
  rw [show (buildHSGs extract [c1, c2] key ntype).nasa_type = ntype from rfl]
  rw [hsel]
  rw [hcomp]
  dsimp only
  rw [List.foldl_cons, List.foldl_cons, List.foldl_nil]
  rw [show batchStep F (buildHSGs extract [c1, c2] key ntype) temperature prop_name
      bucket true (some []) (set_component_id c1 key, mkHSG (extract c1) ntype) =
      some [(c1.formula ++ "-" ++ c1.state, v1)] from by
    unfold batchStep
    dsimp only
    rw [h1]
    dsimp only
    rw [hrids]
    simp [List.lookup, dictInsert]]
  rw [show batchStep F (buildHSGs extract [c1, c2] key ntype) temperature prop_name
      bucket true (some [(c1.formula ++ "-" ++ c1.state, v1)])
      (set_component_id c2 key, mkHSG (extract c2) ntype) =
      some [(c1.formula ++ "-" ++ c1.state, v2)] from by
    unfold batchStep
    dsimp only
    rw [h2]
    dsimp only
    rw [hrids]
    have hb : (set_component_id c2 key == set_component_id c1 key) = false :=
      beq_eq_false_iff_ne.mpr (Ne.symm hid)
    simp [List.lookup, hb, dictInsert]]

/-- Witness for C10: water and steam (both H2O, gas) collapse to the single
role key `H2O-g` carrying only the second component's value. -/
theorem reaction_role_key_collision_witness :
    (buildHSGs extractDemo [compA, compB] .nameFormula .nasa7).calc_components_hsg
      constFormulas ⟨500, "K"⟩ .enthalpy true = some [("H2O-g", ⟨1, "J/mol"⟩)] :=
  reaction_role_key_collision constFormulas extractDemo compA compB .nameFormula
    .nasa7 ⟨500, "K"⟩ .enthalpy .nasa7_200_1000_K ⟨1, "J/mol"⟩ ⟨1, "J/mol"⟩
    rfl rfl (by decide) (by decide) (by decide) (by decide)

/-- C9: for Family-9 packs, the heat capacity is independent of b1 and b2 —
two packs agreeing on a1–a7 give equal heat capacity at every temperature —
while for some such pair (packs differing only in b1/b2) the enthalpy,
entropy and Gibbs free energy all differ: b1/b2 enter only those three
formulas. -/
theorem nasa9_b_coefficients_unused_by_heat_capacity :
    (∀ (p q : NASA9Pack) (T : ℝ),
      p.a1 = q.a1 → p.a2 = q.a2 → p.a3 = q.a3 → p.a4 = q.a4 → p.a5 = q.a5 →
      p.a6 = q.a6 → p.a7 = q.a7 →
      Cp_IG_NASA9_polynomial p T = Cp_IG_NASA9_polynomial q T) ∧
    (∃ (p q : NASA9Pack) (T : ℝ),
      p.a1 = q.a1 ∧ p.a2 = q.a2 ∧ p.a3 = q.a3 ∧ p.a4 = q.a4 ∧ p.a5 = q.a5 ∧
      p.a6 = q.a6 ∧ p.a7 = q.a7 ∧
      En_IG_NASA9_polynomial p T ≠ En_IG_NASA9_polynomial q T ∧
      S_IG_NASA9_polynomial p T ≠ S_IG_NASA9_polynomial q T ∧
      GiFrEn_IG_NASA9 p T ≠ GiFrEn_IG_NASA9 q T) := by
  constructor
  · intro p q T h1 h2 h3 h4 h5 h6 h7
    unfold Cp_IG_NASA9_polynomial
    rw [h1, h2, h3, h4, h5, h6, h7]
  · refine ⟨⟨0, 0, 0, 0, 0, 0, 0, 0, 0⟩, ⟨0, 0, 0, 0, 0, 0, 0, 1, 2⟩, 1,
      rfl, rfl, rfl, rfl, rfl, rfl, rfl, ?_, ?_, ?_⟩
    · norm_num [En_IG_NASA9_polynomial, R_gas, Real.log_one]
    · norm_num [S_IG_NASA9_polynomial, R_gas, Real.log_one]
    · norm_num [GiFrEn_IG_NASA9, En_IG_NASA9_polynomial, S_IG_NASA9_polynomial,
        R_gas, Real.log_one]

/-- Witness for C9: two concrete packs differing only in b1/b2 give equal
heat capacity at T = 2. -/
theorem nasa9_b_coefficients_unused_by_heat_capacity_witness :
    Cp_IG_NASA9_polynomial ⟨1, 2, 3, 4, 5, 6, 7, 0, 0⟩ 2 =
      Cp_IG_NASA9_polynomial ⟨1, 2, 3, 4, 5, 6, 7, 8, 9⟩ 2 :=
  nasa9_b_coefficients_unused_by_heat_capacity.1 ⟨1, 2, 3, 4, 5, 6, 7, 0, 0⟩
    ⟨1, 2, 3, 4, 5, 6, 7, 8, 9⟩ 2 rfl rfl rfl rfl rfl rfl rfl

end NASACalc
